import Mathlib

/-!
# Verification of the wug-infoblox-sync reconciliation service

A shallow embedding, in Lean, of the core of the `wug-infoblox-sync`
repository: the IP space utilities (`ip_utils.py`), the device-to-host-record
mapper (`mapper.py`), the data model (`models.py`) and the reconciliation
engine (`sync_service.py`), together with the target-system gateway's upsert
operation (`infoblox_client.py`).  Python strings are modelled as lists of
characters, Python dictionaries as structures whose absent keys are `none`,
raising code as `Option`/`Except` values, and the remote gateways as function
parameters (dependency injection of the collaborator objects).  The theorems
below settle the behavioural claims about the service.
-/

set_option maxRecDepth 4000

namespace WugSync

/-- Python strings are modelled as lists of characters. -/
abbrev Str := List Char

/-- Embed a Lean string literal as a modelled Python string. -/
def str (s : String) : Str := s.toList

/-- Python `s.split(sep)` for a one-character separator: the (always nonempty)
list of chunks between occurrences of the separator. -/
def splitOn (c : Char) : Str → List Str
  | [] => [[]]
  | x :: xs =>
    match splitOn c xs with
    | [] => [[x]]
    | h :: t => if x = c then [] :: h :: t else (x :: h) :: t

/-- Numeric value of a decimal digit character. -/
def digitVal (ch : Char) : Nat := ch.toNat - 48

/-- Decimal value of a digit string, as Python `int()` computes it. -/
def decimalVal (s : Str) : Nat := s.foldl (fun acc ch => acc * 10 + digitVal ch) 0

/-- One octet of a dotted-quad address, parsed as CPython
`IPv4Address._parse_octet` does: nonempty, at most three characters, decimal
digits only, no leading zero on a multi-digit octet, value at most 255.
`none` models the `ValueError` CPython raises. -/
def parseOctet (s : Str) : Option Nat :=
  if s = [] then none
  else if ¬ (s.length ≤ 3 ∧ s.all Char.isDigit = true) then none
  else if 1 < s.length ∧ s.head? = some '0' then none
  else if decimalVal s ≤ 255 then some (decimalVal s) else none

/-- CPython `ipaddress.IPv4Address` parsing of a dotted-quad string: exactly
four octets joined by dots; result is the 32-bit numeric address value.
`none` models the `AddressValueError` raised on malformed input. -/
def parseIPv4 (s : Str) : Option Nat :=
  match splitOn '.' s with
  | [a, b, c, d] => do
    let o1 ← parseOctet a
    let o2 ← parseOctet b
    let o3 ← parseOctet c
    let o4 ← parseOctet d
    some (o1 * 2 ^ 24 + o2 * 2 ^ 16 + o3 * 2 ^ 8 + o4)
  | _ => none

/-- Decimal rendering of an octet value below 256, as Python `str()` prints a
small integer: one to three digits, no leading zeros. -/
def octToChars (n : Nat) : Str :=
  if n < 10 then [Nat.digitChar n]
  else if n < 100 then [Nat.digitChar (n / 10), Nat.digitChar (n % 10)]
  else [Nat.digitChar (n / 100), Nat.digitChar (n / 10 % 10), Nat.digitChar (n % 10)]

/-- `str(ipaddress.IPv4Address(a))`: dotted-quad rendering of a 32-bit value. -/
def ipToString (a : Nat) : Str :=
  octToChars (a / 2 ^ 24 % 256) ++ '.' ::
    (octToChars (a / 2 ^ 16 % 256) ++ '.' ::
      (octToChars (a / 2 ^ 8 % 256) ++ '.' :: octToChars (a % 256)))

/-- CPython `_prefix_from_prefix_string`: the part after the slash must be all
decimal digits (leading zeros tolerated here, unlike octets) with value at
most 32. -/
def parsePrefixLen (s : Str) : Option Nat :=
  if s ≠ [] ∧ s.all Char.isDigit = true then
    if decimalVal s ≤ 32 then some (decimalVal s) else none
  else none

/-- CPython `ipaddress.IPv4Network(s, strict=False)` over the dotted-quad /
decimal-prefix input grammar used by this repository: a bare address means a
/32, and host bits are masked away because `strict=False`.  (Python
additionally accepts a dotted netmask or hostmask after the slash; that
alternative spelling is unused by the repository and outside the modelled
grammar.)  Returns (network address, prefix length); `none` models
`ValueError`. -/
def parseIPv4Network (s : Str) : Option (Nat × Nat) :=
  match splitOn '/' s with
  | [a] => (parseIPv4 a).map (fun v => (v, 32))
  | [a, p] => do
    let v ← parseIPv4 a
    let pl ← parsePrefixLen p
    some (v / 2 ^ (32 - pl) * 2 ^ (32 - pl), pl)
  | _ => none

/-- The numeric host addresses of a network, in the order CPython
`IPv4Network.hosts()` enumerates them: for prefixes 31 and 32 it yields every
address of the network (the RFC 3021 special case of CPython), otherwise every
address except the network and broadcast address, ascending. -/
def hostNats (net pl : Nat) : List Nat :=
  if 31 ≤ pl then (List.range (2 ^ (32 - pl))).map (fun i => net + i)
  else (List.range (2 ^ (32 - pl) - 2)).map (fun i => net + 1 + i)

/-- `ip_utils.get_usable_ips`: `[str(ip) for ip in list(network.hosts())]`.
`none` models the `ValueError` raised on an unparsable CIDR. -/
def get_usable_ips (network_cidr : Str) : Option (List Str) :=
  (parseIPv4Network network_cidr).map (fun np => (hostNats np.1 np.2).map ipToString)

/-- `ip_utils.get_total_ips`: `network.num_addresses - 2`, a Python int which
may be negative (for /31 and /32 networks). -/
def get_total_ips (network_cidr : Str) : Option Int :=
  (parseIPv4Network network_cidr).map (fun np => (2 : Int) ^ (32 - np.2) - 2)

/-- CPython `address in network`: numerically between the network address and
the broadcast address. -/
def inNetworkB (a net pl : Nat) : Bool :=
  decide (net ≤ a ∧ a ≤ net + 2 ^ (32 - pl) - 1)

/-- The comprehension `[ip for ip in used_ips if ipaddress.IPv4Address(ip) in
network_obj]` from `calculate_utilization`: `IPv4Address(ip)` is evaluated on
every item, so a malformed item makes the whole comprehension raise (`none`);
well-formed items are kept exactly when inside the network. -/
def filterUsedInNetwork (used_ips : List Str) (net pl : Nat) : Option (List Str) :=
  match used_ips with
  | [] => some []
  | ip :: rest => do
    let a ← parseIPv4 ip
    let tail ← filterUsedInNetwork rest net pl
    some (if inNetworkB a net pl then ip :: tail else tail)

/-- Round half to even at the integers, on rationals. -/
def roundHalfEven (q : ℚ) : Int :=
  let f := Rat.floor q
  let r := q - f
  if r < 1 / 2 then f
  else if 1 / 2 < r then f + 1
  else if f % 2 = 0 then f else f + 1

/-- Python `round(x, 2)`: round half to even at two decimal places.  (The
Python original computes in IEEE-754 doubles; the claims below only exercise
the exact value 0, where doubles and rationals agree.) -/
def round2 (q : ℚ) : ℚ := (roundHalfEven (q * 100) : ℚ) / 100

/-- The dictionary returned by `ip_utils.calculate_utilization`, with its
exact keys. -/
structure Utilization where
  network : Str
  total_ips : Int
  used_ips : Nat
  available_ips : Int
  utilization_percent : ℚ
  network_address : Str
  broadcast_address : Str
  netmask : Str
  prefix_length : Nat
  deriving Repr, DecidableEq

/-- `ip_utils.calculate_utilization`.  `none` models a raised `ValueError`:
either an unparsable CIDR, or a malformed entry of `used_ips` reached by the
filtering comprehension. -/
def calculate_utilization (network_cidr : Str) (used_ips : List Str) :
    Option Utilization := do
  let (net, pl) ← parseIPv4Network network_cidr
  let total_ips : Int := (2 : Int) ^ (32 - pl) - 2
  let valid_used_ips ← filterUsedInNetwork used_ips net pl
  let used_count := valid_used_ips.length
  let available_count : Int := total_ips - used_count
  let utilization_percent : ℚ :=
    if 0 < total_ips then (used_count : ℚ) / (total_ips : ℚ) * 100 else 0
  some {
    network := network_cidr
    total_ips := total_ips
    used_ips := used_count
    available_ips := available_count
    utilization_percent := round2 utilization_percent
    network_address := ipToString net
    broadcast_address := ipToString (net + 2 ^ (32 - pl) - 1)
    netmask := ipToString (2 ^ 32 - 2 ^ (32 - pl))
    prefix_length := pl }

/-- Python truthiness of the optional integer `limit`: `None` and `0` are both
falsy, so `if limit:` skips the slice for either. -/
def pyTruthy : Option Nat → Bool
  | none => false
  | some n => n != 0

/-- The sort key of `sorted(..., key=lambda ip: ipaddress.IPv4Address(ip))`:
the numeric address value.  (Every string the repository sorts parses
successfully, so the `getD` default is never reached there.) -/
def addrKey (ip : Str) : Nat := (parseIPv4 ip).getD 0

/-- Comparison by numeric address value. -/
def addrLe (x y : Str) : Prop := addrKey x ≤ addrKey y

instance : DecidableRel addrLe := fun x y =>
  inferInstanceAs (Decidable (addrKey x ≤ addrKey y))

/-- `ip_utils.get_available_ips`: the set difference of usable minus used
addresses, sorted by numeric address value (`sorted(usable_ips - used_set,
key=...)`), then sliced by `available[:limit]` when `limit` is truthy.  The
set difference is materialised as a duplicate-free filtered list, which holds
exactly the elements of CPython's set difference; the sort canonicalises the
order exactly as `sorted` does. -/
def get_available_ips (network_cidr : Str) (used_ips : List Str) (limit : Option Nat) :
    Option (List Str) :=
  (get_usable_ips network_cidr).map (fun usable =>
    let available :=
      List.insertionSort addrLe (usable.filter (fun ip => ! used_ips.contains ip))
    if pyTruthy limit then available.take (limit.getD 0) else available)

/-- `ip_utils.get_next_available_ip`: `available[0] if available else None`
over `get_available_ips(..., limit=1)`.  The outer `Option` models the raised
`ValueError` on a bad CIDR; the inner one is the Python `None` return. -/
def get_next_available_ip (network_cidr : Str) (used_ips : List Str) :
    Option (Option Str) :=
  (get_available_ips network_cidr used_ips (some 1)).map (fun available => available.head?)

/-- `models.WUGDevice`: a device fetched from the source system.  The opaque
`raw` payload is an open key-value bag kept only for diagnostics. -/
structure WUGDevice where
  source_id : Str
  hostname : Str
  ip_address : Str
  status : Str
  raw : List (Str × Str)
  deriving Repr, DecidableEq

/-- The `{"value": ...}` wrapper of an Infoblox extended attribute. -/
structure ExtAttrValue where
  value : Str
  deriving Repr, DecidableEq

/-- `models.InfobloxHostRecord`. -/
structure InfobloxHostRecord where
  fqdn : Str
  ip_address : Str
  network_view : Str
  extattrs : List (Str × ExtAttrValue)
  deriving Repr, DecidableEq

/-- The slice of `config.Settings` read by the modelled core (the mapper reads
only the network view). -/
structure Settings where
  infoblox_network_view : Str
  deriving Repr, DecidableEq

/-- Python whitespace as recognised by `str.strip()` (the ASCII range; the
repository's hostnames are ASCII). -/
def pyIsSpace (c : Char) : Bool :=
  c == ' ' || c == '\t' || c == '\n' || c == '\r' || c == '\x0b' || c == '\x0c'

/-- Python `str.strip()`: drop leading and trailing whitespace. -/
def pyStrip (s : Str) : Str :=
  ((s.dropWhile pyIsSpace).reverse.dropWhile pyIsSpace).reverse

/-- Python `str.lower()` (ASCII letters; the repository's hostnames are ASCII). -/
def pyLower (s : Str) : Str := s.map Char.toLower

/-- Python `str.replace(" ", "-")`: a one-character pattern, so a per-character map. -/
def pyReplaceSpace (s : Str) : Str := s.map (fun c => if c = ' ' then '-' else c)

/-- `mapper.device_to_infoblox_record`: normalise the hostname (strip,
lowercase, spaces to hyphens, append ".local" when the normalised name
contains no dot), carry the IP address unchanged, set the network view from
settings, and build the value-wrapped extended attributes.  Pure, as in the
source. -/
def device_to_infoblox_record (device : WUGDevice) (settings : Settings) :
    InfobloxHostRecord :=
  let normalized0 := pyReplaceSpace (pyLower (pyStrip device.hostname))
  let normalized_host :=
    if '.' ∉ normalized0 then normalized0 ++ str ".local" else normalized0
  { fqdn := normalized_host
    ip_address := device.ip_address
    network_view := settings.infoblox_network_view
    extattrs := [
      (str "Source", { value := str "WhatsUpGold" }),
      (str "WUG Device ID", { value := device.source_id }),
      (str "WUG Status", { value := device.status })] }

/-- One record of the WAPI query response consulted by the upsert: only its
`_ref` field matters on the modelled path. -/
structure ExistingRecord where
  ref : Option Str
  deriving Repr, DecidableEq

/-- The JSON payload `upsert_host_record` sends on update/create. -/
structure HostPayload where
  name : Str
  ipv4addrs : List Str
  extattrs : List (Str × ExtAttrValue)
  view : Str
  deriving Repr, DecidableEq

/-- A write request issued to the remote target system. -/
inductive WriteReq where
  | put (ref : Str) (payload : HostPayload) : WriteReq
  | post (payload : HostPayload) : WriteReq
  deriving Repr, DecidableEq

/-- The remote HTTP responses observable by the upsert, injected as functions:
the GET query by fqdn and the PUT/POST writes.  `Except.error` models a raised
requests exception (connection failure, or `raise_for_status` on a bad
status after the adapter's retries are exhausted). -/
structure RemoteHttp where
  getHost : Str → Except Str (List ExistingRecord)
  putHost : Str → HostPayload → Except Str Unit
  postHost : HostPayload → Except Str Str

/-- The dictionary `InfobloxClient.upsert_host_record` returns. -/
structure UpsertResult where
  changed : Bool
  action : Str
  fqdn : Str
  ip_address : Str
  ref : Option Str
  deriving Repr, DecidableEq

/-- `InfobloxClient.upsert_host_record`, with the write requests it issues
made explicit in the second component.  When `dry_run` is true the synthetic
acknowledgement is returned immediately: no GET, no PUT, no POST.  Otherwise
the client queries by fqdn, updates the first match in place (PUT) or creates
a new record (POST).  `Except.error` models raised exceptions, including the
explicit RuntimeError on an existing record without `_ref`. -/
def upsert_host_record (remote : RemoteHttp) (record : InfobloxHostRecord)
    (dry_run : Bool) : Except Str UpsertResult × List WriteReq :=
  if dry_run then
    (.ok { changed := true, action := str "dry-run-upsert", fqdn := record.fqdn,
           ip_address := record.ip_address, ref := none }, [])
  else
    match remote.getHost record.fqdn with
    | .error e => (.error e, [])
    | .ok existing =>
      let payload : HostPayload :=
        { name := record.fqdn, ipv4addrs := [record.ip_address],
          extattrs := record.extattrs, view := record.network_view }
      match existing with
      | first :: _ =>
        match first.ref with
        | none => (.error (str "Infoblox returned existing record without _ref"), [])
        | some ref =>
          match remote.putHost ref payload with
          | .error e => (.error e, [.put ref payload])
          | .ok _ =>
            (.ok { changed := true, action := str "updated", fqdn := record.fqdn,
                   ip_address := record.ip_address, ref := none }, [.put ref payload])
      | [] =>
        match remote.postHost payload with
        | .error e => (.error e, [.post payload])
        | .ok r =>
          (.ok { changed := true, action := str "created", fqdn := record.fqdn,
                 ip_address := record.ip_address, ref := some r }, [.post payload])

/-- A per-item `details` entry: a Python dict over these possible keys, with
absent keys modelled as `none`. -/
structure Detail where
  device_id : Option Str := none
  hostname : Str
  ip_address : Str
  result : Option UpsertResult := none
  error : Option Str := none
  action : Option Str := none
  reason : Option Str := none
  message : Option Str := none
  deriving Repr, DecidableEq

/-- `models.SyncResult`. -/
structure SyncResult where
  discovered : Nat
  processed : Nat
  created_or_updated : Nat
  skipped : Nat
  errors : Nat
  dry_run : Bool
  details : List Detail
  deriving Repr, DecidableEq

/-- The mutable counters and details list of a batch loop. -/
structure LoopAcc where
  processed : Nat
  created : Nat
  skipped : Nat
  errors : Nat
  details : List Detail
  deriving Repr, DecidableEq

/-- One iteration of the `run_sync` batch loop: the try block maps the device
and calls the gateway upsert, the except block records the error.  Returns the
details entry and the increments of `created_or_updated` and `errors`.  The
`upsert` argument is the injected `self.infoblox_client.upsert_host_record`
collaborator (in the model only the gateway call can raise: the mapper is
total, as the source mapper is pure string code). -/
def syncStep (settings : Settings)
    (upsert : InfobloxHostRecord → Bool → Except Str UpsertResult)
    (dry_run : Bool) (device : WUGDevice) : Detail × Nat × Nat :=
  match upsert (device_to_infoblox_record device settings) dry_run with
  | .ok result =>
    ({ device_id := some device.source_id, hostname := device.hostname,
       ip_address := device.ip_address, result := some result },
     if result.changed then 1 else 0, 0)
  | .error exc =>
    ({ device_id := some device.source_id, hostname := device.hostname,
       ip_address := device.ip_address, error := some exc }, 0, 1)

/-- The `run_sync` loop, translated to structural recursion over the fetched
devices: every item increments `processed`, each item's increments are summed,
and details entries are appended in iteration order. -/
def syncLoop (settings : Settings)
    (upsert : InfobloxHostRecord → Bool → Except Str UpsertResult)
    (dry_run : Bool) : List WUGDevice → LoopAcc
  | [] => { processed := 0, created := 0, skipped := 0, errors := 0, details := [] }
  | device :: rest =>
    let s := syncStep settings upsert dry_run device
    let acc := syncLoop settings upsert dry_run rest
    { processed := acc.processed + 1, created := s.2.1 + acc.created,
      skipped := acc.skipped, errors := s.2.2 + acc.errors,
      details := s.1 :: acc.details }

/-- `SyncService.run_sync`.  The `devices` argument is the collection the
source gateway's `get_devices` returned; `skipped` is never incremented on the
forward path. -/
def run_sync (settings : Settings)
    (upsert : InfobloxHostRecord → Bool → Except Str UpsertResult)
    (dry_run : Bool) (devices : List WUGDevice) : SyncResult :=
  let acc := syncLoop settings upsert dry_run devices
  { discovered := devices.length
    processed := acc.processed
    created_or_updated := acc.created
    skipped := acc.skipped
    errors := acc.errors
    dry_run := dry_run
    details := acc.details }

/-- A host record as flattened by `InfobloxClient.get_all_host_records` and
consumed by the reverse sync (`record.get("hostname", "")`,
`record.get("ip_address", "")`). -/
structure FetchedHostRecord where
  hostname : Str
  ip_address : Str
  extattrs : List (Str × ExtAttrValue) := []
  comment : Str := []
  deriving Repr, DecidableEq

/-- The dictionary `WUGClient.create_device` resolves to, as read by the
reverse sync: `success`, optional `device_id`, optional `message`. -/
structure CreateResult where
  success : Bool
  device_id : Option Str := none
  message : Option Str := none
  deriving Repr, DecidableEq

/-- The try block of one reverse-sync iteration: existence check by IP in the
source system, the dry-run branch, then creation.  Returns the details entry
and the increments of (created, skipped, errors); `Except.error` is the
exception the loop catches. -/
def reverseTry (device_exists : Str → Except Str Bool)
    (create_device : Str → Str → Str → Except Str CreateResult)
    (dry_run : Bool) (hostname ip_address : Str) :
    Except Str (Detail × Nat × Nat × Nat) := do
  let ex ← device_exists ip_address
  if ex then
    pure ({ hostname := hostname, ip_address := ip_address,
            action := some (str "skipped"),
            reason := some (str "Device already exists in WUG") }, 0, 1, 0)
  else if dry_run then
    pure ({ hostname := hostname, ip_address := ip_address,
            action := some (str "dry-run-create"),
            message := some (str "Would create device in WUG") }, 1, 0, 0)
  else do
    let result ← create_device hostname ip_address hostname
    if result.success then
      pure ({ hostname := hostname, ip_address := ip_address,
              action := some (str "created"), device_id := result.device_id,
              message := some (str "Successfully created in WUG") }, 1, 0, 0)
    else
      pure ({ hostname := hostname, ip_address := ip_address,
              action := some (str "failed"),
              error := some (result.message.getD (str "Unknown error")) }, 0, 0, 1)

/-- One full reverse-sync iteration: the missing-fields guard (`not hostname
or not ip_address` — Python truthiness of strings), then the try block with
its except fallback. -/
def reverseStep (device_exists : Str → Except Str Bool)
    (create_device : Str → Str → Str → Except Str CreateResult)
    (dry_run : Bool) (record : FetchedHostRecord) : Detail × Nat × Nat × Nat :=
  let hostname := record.hostname
  let ip_address := record.ip_address
  if hostname = [] ∨ ip_address = [] then
    ({ hostname := if hostname = [] then str "unknown" else hostname,
       ip_address := if ip_address = [] then str "unknown" else ip_address,
       action := some (str "skipped"),
       reason := some (str "Missing hostname or IP address") }, 0, 1, 0)
  else
    match reverseTry device_exists create_device dry_run hostname ip_address with
    | .ok out => out
    | .error exc =>
      ({ hostname := hostname, ip_address := ip_address,
         action := some (str "failed"), error := some exc }, 0, 0, 1)

/-- The `run_reverse_sync` loop, translated to structural recursion like the
forward loop. -/
def reverseLoop (device_exists : Str → Except Str Bool)
    (create_device : Str → Str → Str → Except Str CreateResult)
    (dry_run : Bool) : List FetchedHostRecord → LoopAcc
  | [] => { processed := 0, created := 0, skipped := 0, errors := 0, details := [] }
  | record :: rest =>
    let s := reverseStep device_exists create_device dry_run record
    let acc := reverseLoop device_exists create_device dry_run rest
    { processed := acc.processed + 1, created := s.2.1 + acc.created,
      skipped := s.2.2.1 + acc.skipped, errors := s.2.2.2 + acc.errors,
      details := s.1 :: acc.details }

/-- `SyncService.run_reverse_sync`.  The `records` argument is the collection
the target gateway's `get_all_host_records` returned; the gateways
(`wug_client.device_exists`, `wug_client.create_device`) are injected. -/
def run_reverse_sync (device_exists : Str → Except Str Bool)
    (create_device : Str → Str → Str → Except Str CreateResult)
    (dry_run : Bool) (records : List FetchedHostRecord) : SyncResult :=
  let acc := reverseLoop device_exists create_device dry_run records
  { discovered := records.length
    processed := acc.processed
    created_or_updated := acc.created
    skipped := acc.skipped
    errors := acc.errors
    dry_run := dry_run
    details := acc.details }

/-- Fixture for witness theorems: settings with the default network view. -/
def wSettings : Settings := { infoblox_network_view := str "default" }

/-- Fixture: a source device. -/
def wDevice0 : WUGDevice :=
  { source_id := str "1", hostname := str "alpha", ip_address := str "10.0.0.1",
    status := str "up", raw := [] }

/-- Fixture: a second source device. -/
def wDevice1 : WUGDevice :=
  { source_id := str "2", hostname := str "beta", ip_address := str "10.0.0.2",
    status := str "up", raw := [] }

/-- Fixture: a gateway upsert that raises on the first device's address and
succeeds on any other. -/
def wUpsertFailFirst : InfobloxHostRecord → Bool → Except Str UpsertResult :=
  fun record _ =>
    if record.ip_address = str "10.0.0.1" then .error (str "boom")
    else .ok { changed := true, action := str "created", fqdn := record.fqdn,
               ip_address := record.ip_address, ref := none }

/-- Fixture: an existence check that always finds the device. -/
def wExistsTrue : Str → Except Str Bool := fun _ => .ok true

/-- Fixture: an existence check that never finds the device. -/
def wExistsFalse : Str → Except Str Bool := fun _ => .ok false

/-- Fixture: a creation call that reports success. -/
def wCreateOk : Str → Str → Str → Except Str CreateResult :=
  fun _ _ _ => .ok { success := true, device_id := some (str "99"),
                     message := some (str "created ok") }

/-- Fixture: a creation call that reports failure (success false). -/
def wCreateFail : Str → Str → Str → Except Str CreateResult :=
  fun _ _ _ => .ok { success := false, message := some (str "create failed") }

/-- Fixture: a creation call that raises. -/
def wCreateRaise : Str → Str → Str → Except Str CreateResult :=
  fun _ _ _ => .error (str "boom-create")

/-- Fixture: a fetched target host record. -/
def wRecord0 : FetchedHostRecord :=
  { hostname := str "h1", ip_address := str "10.0.0.1" }

/-- Fixture: a fetched target host record with an empty IP address. -/
def wRecordNoIp : FetchedHostRecord := { hostname := str "h1", ip_address := [] }

/-- Fixture: a remote HTTP environment whose query finds nothing and whose
writes succeed. -/
def wRemote : RemoteHttp :=
  { getHost := fun _ => .ok []
    putHost := fun _ _ => .ok ()
    postHost := fun _ => .ok (str "ref1") }

/-- Fixture: a target host record to upsert. -/
def wHostRecord : InfobloxHostRecord :=
  { fqdn := str "h1.local", ip_address := str "10.0.0.1",
    network_view := str "default", extattrs := [] }

example : (calculate_utilization (str "192.168.1.0/26") [str "192.168.1.5", str "10.0.0.1"]).map
    (fun u => (u.total_ips, u.used_ips, u.available_ips)) = some (62, 1, 61) := by decide
example : calculate_utilization (str "192.168.1.0/24") [str "192.168.1.5", str "192.168.1.300"]
    = none := by decide
example : (calculate_utilization (str "10.0.0.5/32") [str "10.0.0.5"]).map
    (fun u => (u.total_ips, u.used_ips, u.available_ips)) = some (-1, 1, -2) := by decide
example : get_available_ips (str "10.0.0.0/29") [str "10.0.0.2"] none
    = some [str "10.0.0.1", str "10.0.0.3", str "10.0.0.4", str "10.0.0.5", str "10.0.0.6"] := by
  decide
example : get_available_ips (str "10.0.0.0/29") [str "10.0.0.2"] (some 0)
    = some [str "10.0.0.1", str "10.0.0.3", str "10.0.0.4", str "10.0.0.5", str "10.0.0.6"] := by
  decide
example : get_available_ips (str "10.0.0.0/29") [str "10.0.0.2"] (some 2)
    = some [str "10.0.0.1", str "10.0.0.3"] := by decide
example : get_next_available_ip (str "10.0.0.0/29") [str "10.0.0.1"]
    = some (some (str "10.0.0.2")) := by decide

theorem splitOn_ne_nil (c : Char) (s : Str) : splitOn c s ≠ [] := by
  cases s with
  | nil => simp [splitOn]
  | cons x xs =>
    rw [splitOn]
    cases hs : splitOn c xs with
    | nil => simp
    | cons hh tt => by_cases hxc : x = c <;> simp [hxc]

theorem splitOn_of_not_mem {c : Char} {a : Str} (h : c ∉ a) : splitOn c a = [a] := by
  induction a with
  | nil => rfl
  | cons x xs ih =>
    simp only [List.mem_cons, not_or] at h
    rw [splitOn, ih h.2]
    simp [Ne.symm h.1]

theorem splitOn_append {c : Char} {b : Str} : ∀ {a : Str}, c ∉ a →
    splitOn c (a ++ c :: b) = a :: splitOn c b := by
  intro a
  induction a with
  | nil =>
    intro _
    rw [List.nil_append, splitOn]
    cases hsb : splitOn c b with
    | nil => exact absurd hsb (splitOn_ne_nil c b)
    | cons hh tt => simp
  | cons x xs ih =>
    intro h
    simp only [List.mem_cons, not_or] at h
    rw [List.cons_append, splitOn, ih h.2]
    simp [Ne.symm h.1]

theorem parseOctet_octToChars {k : Nat} (hk : k < 256) : parseOctet (octToChars k) = some k := by
  have h : ∀ j : Fin 256, parseOctet (octToChars j.1) = some j.1 := by decide
  exact h ⟨k, hk⟩

theorem dot_not_mem_octToChars {k : Nat} (hk : k < 256) : '.' ∉ octToChars k := by
  have h : ∀ j : Fin 256, '.' ∉ octToChars j.1 := by decide
  exact h ⟨k, hk⟩

theorem splitOn_ipToString (a : Nat) :
    splitOn '.' (ipToString a) =
      [octToChars (a / 2 ^ 24 % 256), octToChars (a / 2 ^ 16 % 256),
       octToChars (a / 2 ^ 8 % 256), octToChars (a % 256)] := by
  have h1 : a / 2 ^ 24 % 256 < 256 := Nat.mod_lt _ (by norm_num)
  have h2 : a / 2 ^ 16 % 256 < 256 := Nat.mod_lt _ (by norm_num)
  have h3 : a / 2 ^ 8 % 256 < 256 := Nat.mod_lt _ (by norm_num)
  have h4 : a % 256 < 256 := Nat.mod_lt _ (by norm_num)
  unfold ipToString
  rw [splitOn_append (dot_not_mem_octToChars h1),
      splitOn_append (dot_not_mem_octToChars h2),
      splitOn_append (dot_not_mem_octToChars h3),
      splitOn_of_not_mem (dot_not_mem_octToChars h4)]

/-- Round trip: parsing the dotted-quad rendering of a 32-bit value recovers
the value.  This is the key fact connecting string-level and numeric-level
reasoning about addresses. -/
theorem parseIPv4_ipToString {a : Nat} (ha : a < 2 ^ 32) :
    parseIPv4 (ipToString a) = some a := by
  have h1 : a / 2 ^ 24 % 256 < 256 := Nat.mod_lt _ (by norm_num)
  have h2 : a / 2 ^ 16 % 256 < 256 := Nat.mod_lt _ (by norm_num)
  have h3 : a / 2 ^ 8 % 256 < 256 := Nat.mod_lt _ (by norm_num)
  have h4 : a % 256 < 256 := Nat.mod_lt _ (by norm_num)
  unfold parseIPv4
  rw [splitOn_ipToString]
  simp only [parseOctet_octToChars h1, parseOctet_octToChars h2,
    parseOctet_octToChars h3, parseOctet_octToChars h4, Option.bind_eq_bind,
    Option.some_bind, Option.some.injEq]
  have e24 : (2 : Nat) ^ 24 = 16777216 := by norm_num
  have e16 : (2 : Nat) ^ 16 = 65536 := by norm_num
  have e8 : (2 : Nat) ^ 8 = 256 := by norm_num
  have e32 : (2 : Nat) ^ 32 = 4294967296 := by norm_num
  rw [e24, e16, e8] at *
  rw [e32] at ha
  omega

theorem ipToString_inj {a b : Nat} (ha : a < 2 ^ 32) (hb : b < 2 ^ 32)
    (h : ipToString a = ipToString b) : a = b := by
  have := parseIPv4_ipToString ha
  rw [h, parseIPv4_ipToString hb] at this
  exact (Option.some.injEq _ _ ▸ this).symm

theorem parseOctet_le {s : Str} {v : Nat} (h : parseOctet s = some v) : v ≤ 255 := by
  unfold parseOctet at h
  split at h
  · exact absurd h (by simp)
  · split at h
    · exact absurd h (by simp)
    · split at h
      · exact absurd h (by simp)
      · split at h
        · next hle => exact Option.some.inj h ▸ hle
        · exact absurd h (by simp)

theorem parseIPv4_lt {s : Str} {a : Nat} (h : parseIPv4 s = some a) : a < 2 ^ 32 := by
  unfold parseIPv4 at h
  split at h
  · simp only [Option.bind_eq_bind, Option.bind_eq_some, Option.some.injEq] at h
    obtain ⟨o1, h1, o2, h2, o3, h3, o4, h4, rfl⟩ := h
    have b1 := parseOctet_le h1
    have b2 := parseOctet_le h2
    have b3 := parseOctet_le h3
    have b4 := parseOctet_le h4
    have e24 : (2 : Nat) ^ 24 = 16777216 := by norm_num
    have e16 : (2 : Nat) ^ 16 = 65536 := by norm_num
    have e8 : (2 : Nat) ^ 8 = 256 := by norm_num
    have e32 : (2 : Nat) ^ 32 = 4294967296 := by norm_num
    rw [e24, e16, e8, e32]
    omega
  · exact absurd h (by simp)

theorem parsePrefixLen_le {s : Str} {pl : Nat} (h : parsePrefixLen s = some pl) :
    pl ≤ 32 := by
  unfold parsePrefixLen at h
  split at h
  · split at h
    · next hle => exact Option.some.inj h ▸ hle
    · exact absurd h (by simp)
  · exact absurd h (by simp)

theorem dvd_lt_add_le {d n m : Nat} (hn : d ∣ n) (hm : d ∣ m) (h : n < m) :
    n + d ≤ m := by
  obtain ⟨a, rfl⟩ := hn
  obtain ⟨b, rfl⟩ := hm
  have hd : 0 < d := by
    rcases Nat.eq_zero_or_pos d with h0 | h0
    · subst h0; omega
    · exact h0
  have hab : a < b := by
    by_contra hc
    push_neg at hc
    exact absurd (Nat.mul_le_mul_left d hc) (by omega)
  calc d * a + d = d * (a + 1) := by ring
    _ ≤ d * b := Nat.mul_le_mul_left d hab

/-- Structural facts about a parsed network: the prefix is at most 32, the
network address has its host bits clear, and the whole network fits below
2^32. -/
theorem parseIPv4Network_bounds {s : Str} {net pl : Nat}
    (h : parseIPv4Network s = some (net, pl)) :
    pl ≤ 32 ∧ net % 2 ^ (32 - pl) = 0 ∧ net + 2 ^ (32 - pl) ≤ 2 ^ 32 := by
  unfold parseIPv4Network at h
  split at h
  · simp only [Option.map_eq_some'] at h
    obtain ⟨v, hv, heq⟩ := h
    obtain ⟨rfl, rfl⟩ := Prod.mk.injEq .. ▸ heq
    have := parseIPv4_lt hv
    refine ⟨le_refl 32, ?_, ?_⟩ <;> simp <;> omega
  · simp only [Option.bind_eq_bind, Option.bind_eq_some, Option.some.injEq] at h
    obtain ⟨v, hv, pl', hpl, heq⟩ := h
    obtain ⟨rfl, rfl⟩ := Prod.mk.injEq .. ▸ heq
    have hle := parsePrefixLen_le hpl
    have hvlt := parseIPv4_lt hv
    refine ⟨hle, Nat.mul_mod_left _ _, ?_⟩
    rcases Nat.lt_or_ge (v / 2 ^ (32 - pl') * 2 ^ (32 - pl')) (2 ^ 32) with hlt | hge
    · exact dvd_lt_add_le ⟨v / 2 ^ (32 - pl'), Nat.mul_comm _ _⟩
        (pow_dvd_pow 2 (by omega)) hlt
    · have : v / 2 ^ (32 - pl') * 2 ^ (32 - pl') ≤ v := Nat.div_mul_le_self v _
      omega
  · exact absurd h (by simp)

theorem hostNats_lt {net pl x : Nat} (hb : net + 2 ^ (32 - pl) ≤ 2 ^ 32)
    (hx : x ∈ hostNats net pl) : x < 2 ^ 32 := by
  unfold hostNats at hx
  split at hx <;>
    · simp only [List.mem_map, List.mem_range] at hx
      obtain ⟨i, hi, rfl⟩ := hx
      omega

theorem hostNats_pairwise (net pl : Nat) : (hostNats net pl).Pairwise (· < ·) := by
  unfold hostNats
  split <;> exact (List.pairwise_lt_range _).map _ (fun a b h => by omega)

theorem addrKey_ipToString {x : Nat} (hx : x < 2 ^ 32) : addrKey (ipToString x) = x := by
  unfold addrKey
  rw [parseIPv4_ipToString hx]
  rfl

theorem usable_pairwise_lt {net pl : Nat} (hb : net + 2 ^ (32 - pl) ≤ 2 ^ 32) :
    ((hostNats net pl).map ipToString).Pairwise (fun a b => addrKey a < addrKey b) := by
  rw [List.pairwise_map]
  refine (hostNats_pairwise net pl).imp_of_mem ?_
  intro a b ha hb'
  rw [addrKey_ipToString (hostNats_lt hb ha), addrKey_ipToString (hostNats_lt hb hb')]
  exact id

/-- The filtered usable list is already sorted by numeric address value, so
the sort of `get_available_ips` leaves it unchanged. -/
theorem available_insertionSort_eq {net pl : Nat} (hb : net + 2 ^ (32 - pl) ≤ 2 ^ 32)
    (used : List Str) :
    List.insertionSort addrLe
        (((hostNats net pl).map ipToString).filter (fun ip => ! used.contains ip)) =
      ((hostNats net pl).map ipToString).filter (fun ip => ! used.contains ip) := by
  apply List.Sorted.insertionSort_eq
  exact ((usable_pairwise_lt hb).filter _).imp (fun hab => Nat.le_of_lt hab)

theorem head?_take_one {l : List Str} : (l.take 1).head? = l.head? := by
  cases l <;> rfl

theorem round2_zero : round2 0 = 0 := by
  have hfl : Rat.floor 0 = 0 := by
    rw [Rat.floor_def']
    simp
  norm_num [round2, roundHalfEven, hfl]

theorem filterUsedInNetwork_none {net pl : Nat} : ∀ {used : List Str},
    (∃ ip ∈ used, parseIPv4 ip = none) → filterUsedInNetwork used net pl = none := by
  intro used
  induction used with
  | nil => rintro ⟨ip, h, -⟩; exact absurd h (List.not_mem_nil ip)
  | cons x rest ih =>
    rintro ⟨ip, hmem, hbad⟩
    rcases List.mem_cons.mp hmem with rfl | hmem'
    · simp [filterUsedInNetwork, hbad]
    · unfold filterUsedInNetwork
      cases hx : parseIPv4 x
      · rfl
      · simp only [Option.bind_eq_bind, Option.some_bind, ih ⟨ip, hmem', hbad⟩,
          Option.none_bind]

theorem filterUsedInNetwork_some {net pl : Nat} : ∀ {used : List Str} {l : List Str},
    filterUsedInNetwork used net pl = some l →
    l = used.filter (fun ip =>
      match parseIPv4 ip with
      | some a => inNetworkB a net pl
      | none => false) := by
  intro used
  induction used with
  | nil => intro l h; simpa [filterUsedInNetwork] using h.symm
  | cons x rest ih =>
    intro l h
    unfold filterUsedInNetwork at h
    cases hx : parseIPv4 x with
    | none => rw [hx] at h; exact absurd h (by simp)
    | some a =>
      rw [hx] at h
      simp only [Option.bind_eq_bind, Option.some_bind, Option.bind_eq_some,
        Option.some.injEq] at h
      obtain ⟨tail, htail, rfl⟩ := h
      rw [List.filter_cons, hx]
      split
      · exact congrArg _ (ih htail)
      · exact ih htail

theorem syncLoop_spec (settings : Settings)
    (upsert : InfobloxHostRecord → Bool → Except Str UpsertResult)
    (dry_run : Bool) (devices : List WUGDevice) :
    syncLoop settings upsert dry_run devices =
      { processed := devices.length
        created := (devices.map (fun d => (syncStep settings upsert dry_run d).2.1)).sum
        skipped := 0
        errors := (devices.map (fun d => (syncStep settings upsert dry_run d).2.2)).sum
        details := devices.map (fun d => (syncStep settings upsert dry_run d).1) } := by
  induction devices with
  | nil => rfl
  | cons d rest ih =>
    simp only [syncLoop, ih, List.map_cons, List.sum_cons, List.length_cons]

theorem reverseLoop_spec (device_exists : Str → Except Str Bool)
    (create_device : Str → Str → Str → Except Str CreateResult)
    (dry_run : Bool) (records : List FetchedHostRecord) :
    reverseLoop device_exists create_device dry_run records =
      { processed := records.length
        created :=
          (records.map (fun r => (reverseStep device_exists create_device dry_run r).2.1)).sum
        skipped :=
          (records.map (fun r => (reverseStep device_exists create_device dry_run r).2.2.1)).sum
        errors :=
          (records.map (fun r => (reverseStep device_exists create_device dry_run r).2.2.2)).sum
        details :=
          records.map (fun r => (reverseStep device_exists create_device dry_run r).1) } := by
  induction records with
  | nil => rfl
  | cons r rest ih =>
    simp only [reverseLoop, ih, List.map_cons, List.sum_cons, List.length_cons]

example : parseIPv4 (str "192.168.1.5") = some 3232235781 := by decide
example : parseIPv4 (str "192.168.1.300") = none := by decide
example : parseIPv4 (str "01.2.3.4") = none := by decide
example : parseIPv4Network (str "192.168.1.77/24") = some (3232235776, 24) := by decide
example : get_usable_ips (str "10.0.0.0/31") = some [str "10.0.0.0", str "10.0.0.1"] := by decide
example : get_usable_ips (str "10.0.0.5/32") = some [str "10.0.0.5"] := by decide
example : get_usable_ips (str "10.0.0.0/30") = some [str "10.0.0.1", str "10.0.0.2"] := by decide

/-- **C2** (settled as a code bug): the spec — like the function's own
docstring and inline comment — says usable addresses exclude the network and
broadcast address, so /31 and /32 networks yield an empty sequence; but
`get_usable_ips` delegates to CPython `IPv4Network.hosts()`, whose RFC 3021
special case returns both addresses of a /31 and the single address of a /32.
The /24 part of the claim holds: exactly 254 addresses. -/
theorem get_usable_ips_small_network_bug :
    get_usable_ips (str "10.0.0.0/31") = some [str "10.0.0.0", str "10.0.0.1"] ∧
    get_usable_ips (str "10.0.0.5/32") = some [str "10.0.0.5"] ∧
    (get_usable_ips (str "192.168.1.0/24")).map List.length = some 254 := by
  refine ⟨by decide, by decide, ?_⟩
  decide

/-- **C3** as stated fails on the code: `calculate_utilization` evaluates
`ipaddress.IPv4Address(ip)` on every used entry while filtering, so the
malformed entry "192.168.1.300" raises `ValueError` (modelled as `none`)
instead of being silently dropped with `usedCount == 1`. -/
theorem calculate_utilization_malformed_raises :
    calculate_utilization (str "192.168.1.0/24")
      [str "192.168.1.5", str "192.168.1.300"] = none := by
  decide

/-- **C3 (amended)**: the used list is filtered to well-formed addresses
inside the network before counting — a well-formed address outside the network
is silently dropped from the count — but a malformed entry makes the whole
call raise (`none`) rather than being dropped. -/
theorem calculate_utilization_filtering (cidr : Str) (net pl : Nat) (used : List Str)
    (hparse : parseIPv4Network cidr = some (net, pl)) :
    ((∃ ip ∈ used, parseIPv4 ip = none) → calculate_utilization cidr used = none) ∧
    (∀ u, calculate_utilization cidr used = some u →
      u.used_ips = (used.filter (fun ip =>
        match parseIPv4 ip with
        | some a => inNetworkB a net pl
        | none => false)).length) := by
  constructor
  · intro hbad
    unfold calculate_utilization
    rw [hparse]
    simp only [Option.bind_eq_bind, Option.some_bind]
    rw [filterUsedInNetwork_none hbad]
    rfl
  · intro u hu
    unfold calculate_utilization at hu
    rw [hparse] at hu
    simp only [Option.bind_eq_bind, Option.some_bind] at hu
    cases hfil : filterUsedInNetwork used net pl with
    | none => rw [hfil] at hu; exact absurd hu (by simp)
    | some l =>
      rw [hfil] at hu
      simp only [Option.some_bind, Option.some.injEq] at hu
      rw [← hu, ← filterUsedInNetwork_some hfil]

/-- Witness for C3 (amended): a concrete network where the out-of-network
entry is dropped and the in-network entry counted. -/
theorem calculate_utilization_filtering_witness :
    (calculate_utilization (str "192.168.1.0/24")
        [str "192.168.1.5", str "10.0.0.1"]).map Utilization.used_ips = some 1 := by
  cases hu : calculate_utilization (str "192.168.1.0/24") [str "192.168.1.5", str "10.0.0.1"] with
  | none => exact absurd hu (by decide)
  | some u =>
    have h := (calculate_utilization_filtering (str "192.168.1.0/24") 3232235776 24
      [str "192.168.1.5", str "10.0.0.1"] (by decide)).2 u hu
    rw [Option.map_some']
    rw [h]
    decide

/-- **C10 (confirmed)**: `total_ips` is `num_addresses - 2` without clamping,
so a /32 yields -1 and a /31 yields 0; `available_ips = total_ips - used`
may be negative; `utilization_percent` is still 0 there because the division
is guarded by `total_ips > 0`. -/
theorem calculate_utilization_degenerate (cidr : Str) (net pl : Nat)
    (used : List Str) (u : Utilization)
    (hparse : parseIPv4Network cidr = some (net, pl))
    (hu : calculate_utilization cidr used = some u) :
    u.total_ips = (2 : Int) ^ (32 - pl) - 2 ∧
    u.available_ips = u.total_ips - u.used_ips ∧
    (pl = 32 → u.total_ips = -1 ∧ u.utilization_percent = 0) ∧
    (pl = 31 → u.total_ips = 0 ∧ u.utilization_percent = 0) := by
  unfold calculate_utilization at hu
  rw [hparse] at hu
  simp only [Option.bind_eq_bind, Option.some_bind] at hu
  cases hfil : filterUsedInNetwork used net pl with
  | none => rw [hfil] at hu; exact absurd hu (by simp)
  | some l =>
    rw [hfil] at hu
    simp only [Option.some_bind, Option.some.injEq] at hu
    obtain rfl := hu.symm
    refine ⟨rfl, rfl, fun h32 => ?_, fun h31 => ?_⟩
    · subst h32
      refine ⟨by norm_num, ?_⟩
      show round2 (if (0 : Int) < 2 ^ (32 - 32) - 2 then _ else 0) = 0
      rw [if_neg (by norm_num)]
      exact round2_zero
    · subst h31
      refine ⟨by norm_num, ?_⟩
      show round2 (if (0 : Int) < 2 ^ (32 - 31) - 2 then _ else 0) = 0
      rw [if_neg (by norm_num)]
      exact round2_zero

/-- Witness for C10: a /32 network with one used address, where
`total_ips = -1`, `available_ips = -2` (negative) and the percentage is 0. -/
theorem calculate_utilization_degenerate_witness :
    (calculate_utilization (str "10.0.0.5/32") [str "10.0.0.5"]).map
        (fun u => (u.total_ips, u.available_ips)) = some (-1, -2) ∧
    (calculate_utilization (str "10.0.0.5/32") [str "10.0.0.5"]).map
        Utilization.utilization_percent = some 0 := by
  cases hu : calculate_utilization (str "10.0.0.5/32") [str "10.0.0.5"] with
  | none => exact absurd hu (by decide)
  | some u =>
    have h := calculate_utilization_degenerate (str "10.0.0.5/32") 167772165 32
      [str "10.0.0.5"] u (by decide) hu
    have hused : u.used_ips = 1 := by
      have h2 : (calculate_utilization (str "10.0.0.5/32") [str "10.0.0.5"]).map
          Utilization.used_ips = some 1 := by decide
      rw [hu, Option.map_some', Option.some.injEq] at h2
      exact h2
    obtain ⟨ht, ha, h32, -⟩ := h
    obtain ⟨ht', hp⟩ := h32 rfl
    refine ⟨?_, by rw [Option.map_some', hp]⟩
    rw [Option.map_some', ht', ha, ht', hused]
    norm_num

/-- **C7 (confirmed)**: `get_next_available_ip` is the head of
`get_available_ips(..., limit=1)` (and equally of the unlimited list), and the
concrete /24 example skips the used ".1" and returns ".2". -/
theorem get_next_available_ip_spec (cidr : Str) (used : List Str) :
    get_next_available_ip cidr used
        = (get_available_ips cidr used (some 1)).map List.head? ∧
    get_next_available_ip cidr used
        = (get_available_ips cidr used none).map List.head? ∧
    get_next_available_ip (str "192.168.1.0/24") [str "192.168.1.1"]
        = some (some (str "192.168.1.2")) := by
  refine ⟨rfl, ?_, by decide⟩
  unfold get_next_available_ip get_available_ips
  cases hp : get_usable_ips cidr with
  | none => rfl
  | some usable =>
    simp [pyTruthy, head?_take_one]

/-- **C8** as stated fails on the code: `if limit:` treats a provided
`limit = 0` as falsy (like `None`), so no truncation happens and the full
list is returned instead of at most 0 elements. -/
theorem get_available_ips_limit_zero_counterexample :
    get_available_ips (str "10.0.0.0/30") [] (some 0)
      = some [str "10.0.0.1", str "10.0.0.2"] ∧
    ¬ (get_available_ips (str "10.0.0.0/30") [] (some 0)).map List.length = some 0 := by
  decide

/-- **C8 (amended)**: `get_available_ips` returns the set difference of
usable minus used, in ascending numeric order (the sort leaves the
already-ascending filtered list unchanged), truncated to `limit` whenever a
_nonzero_ limit is provided; `limit = 0` is falsy in Python and behaves like
no limit at all. -/
theorem get_available_ips_spec (cidr : Str) (net pl : Nat) (used : List Str)
    (limit : Option Nat) (hparse : parseIPv4Network cidr = some (net, pl)) :
    ∃ full,
      full = ((hostNats net pl).map ipToString).filter (fun ip => ! used.contains ip) ∧
      full.Pairwise (fun x y => addrKey x < addrKey y) ∧
      (∀ ip, ip ∈ full ↔ ip ∈ (hostNats net pl).map ipToString ∧ ip ∉ used) ∧
      get_available_ips cidr used limit =
        some (if pyTruthy limit then full.take (limit.getD 0) else full) ∧
      (limit = some 0 → get_available_ips cidr used limit = some full) := by
  have hb := (parseIPv4Network_bounds hparse).2.2
  refine ⟨_, rfl, (usable_pairwise_lt hb).filter _, ?_, ?_, ?_⟩
  · intro ip
    simp [List.mem_filter, List.elem_iff]
  · unfold get_available_ips get_usable_ips
    rw [hparse]
    simp only [Option.map_some']
    rw [available_insertionSort_eq hb]
  · rintro rfl
    unfold get_available_ips get_usable_ips
    rw [hparse]
    simp only [Option.map_some']
    rw [available_insertionSort_eq hb]
    rfl

/-- Witness for C8 (amended): a concrete /29 network with one used address,
under a nonzero limit and under the falsy limit 0. -/
theorem get_available_ips_spec_witness :
    get_available_ips (str "10.0.0.0/29") [str "10.0.0.1"] (some 2)
      = some [str "10.0.0.2", str "10.0.0.3"] ∧
    get_available_ips (str "10.0.0.0/29") [str "10.0.0.1"] (some 0)
      = some [str "10.0.0.2", str "10.0.0.3", str "10.0.0.4",
              str "10.0.0.5", str "10.0.0.6"] := by
  obtain ⟨full, hfull, -, -, heq, -⟩ := get_available_ips_spec (str "10.0.0.0/29")
    167772160 29 [str "10.0.0.1"] (some 2) (by decide)
  obtain ⟨full2, hfull2, -, -, -, hz⟩ := get_available_ips_spec (str "10.0.0.0/29")
    167772160 29 [str "10.0.0.1"] (some 0) (by decide)
  subst hfull hfull2
  constructor
  · rw [heq]; decide
  · rw [hz rfl]; decide

/-- **C4 (confirmed)**: the mapper trims, lowercases and hyphenates the
hostname, appends ".local" exactly when the normalised name contains no dot,
carries the IP address unchanged, takes the network view from the supplied
settings, and builds the value-wrapped extended attributes; hostname
"My Device" maps to "my-device.local".  Purity is inherent: the embedding is a
function of its two arguments alone, as the source is pure string code. -/
theorem device_to_infoblox_record_spec (device : WUGDevice) (settings : Settings) :
    (('.' ∈ pyReplaceSpace (pyLower (pyStrip device.hostname)) →
        (device_to_infoblox_record device settings).fqdn
          = pyReplaceSpace (pyLower (pyStrip device.hostname))) ∧
     ('.' ∉ pyReplaceSpace (pyLower (pyStrip device.hostname)) →
        (device_to_infoblox_record device settings).fqdn
          = pyReplaceSpace (pyLower (pyStrip device.hostname)) ++ str ".local")) ∧
    (device_to_infoblox_record device settings).ip_address = device.ip_address ∧
    (device_to_infoblox_record device settings).network_view
      = settings.infoblox_network_view ∧
    (device_to_infoblox_record device settings).extattrs =
      [(str "Source", { value := str "WhatsUpGold" }),
       (str "WUG Device ID", { value := device.source_id }),
       (str "WUG Status", { value := device.status })] ∧
    (device_to_infoblox_record { device with hostname := str "My Device" } settings).fqdn
      = str "my-device.local" := by
  refine ⟨⟨fun h => ?_, fun h => ?_⟩, rfl, rfl, rfl, rfl⟩
  · simp [device_to_infoblox_record, h]
  · simp [device_to_infoblox_record, h]

/-- Witness for C4: the undotted fixture hostname gains ".local", and the
spaced example maps to "my-device.local". -/
theorem device_to_infoblox_record_spec_witness :
    (device_to_infoblox_record wDevice0 wSettings).fqdn = str "alpha.local" ∧
    (device_to_infoblox_record { wDevice0 with hostname := str "My Device" }
        wSettings).fqdn = str "my-device.local" := by
  have h := device_to_infoblox_record_spec wDevice0 wSettings
  refine ⟨?_, h.2.2.2.2⟩
  have h2 := h.1.2 (by decide)
  rw [h2]
  decide

/-- **C1 (confirmed)**: forward-sync failure isolation.  If the gateway call
for item k raises, the returned result still has `processed` equal to the
batch size, `errors` at least 1, a details entry at position k carrying the
item's device id, hostname, IP address and the error message, and every other
position — including the items after k — still carries its own entry. -/
theorem run_sync_failure_isolation (settings : Settings)
    (upsert : InfobloxHostRecord → Bool → Except Str UpsertResult)
    (dry_run : Bool) (devices : List WUGDevice) (k : Nat) (msg : Str)
    (hk : k < devices.length)
    (herr : upsert (device_to_infoblox_record devices[k] settings) dry_run
      = .error msg) :
    (run_sync settings upsert dry_run devices).processed = devices.length ∧
    1 ≤ (run_sync settings upsert dry_run devices).errors ∧
    (run_sync settings upsert dry_run devices).details.length = devices.length ∧
    (run_sync settings upsert dry_run devices).details[k]?
      = some { device_id := some devices[k].source_id,
               hostname := devices[k].hostname,
               ip_address := devices[k].ip_address,
               error := some msg } ∧
    (∀ j : Nat, (run_sync settings upsert dry_run devices).details[j]?
      = (devices[j]?).map (fun d => (syncStep settings upsert dry_run d).1)) := by
  have hstep : syncStep settings upsert dry_run devices[k]
      = ({ device_id := some devices[k].source_id, hostname := devices[k].hostname,
           ip_address := devices[k].ip_address, error := some msg }, 0, 1) := by
    unfold syncStep
    rw [herr]
  have hloop := syncLoop_spec settings upsert dry_run devices
  refine ⟨?_, ?_, ?_, ?_, fun j => ?_⟩
  · show (syncLoop settings upsert dry_run devices).processed = devices.length
    rw [hloop]
  · show 1 ≤ (syncLoop settings upsert dry_run devices).errors
    rw [hloop]
    have hmem : (syncStep settings upsert dry_run devices[k]).2.2
        ∈ devices.map (fun d => (syncStep settings upsert dry_run d).2.2) :=
      List.mem_map_of_mem _ (devices.getElem_mem hk)
    rw [hstep] at hmem
    exact List.le_sum_of_mem hmem
  · show (syncLoop settings upsert dry_run devices).details.length = devices.length
    rw [hloop]
    simp
  · show (syncLoop settings upsert dry_run devices).details[k]? = _
    rw [hloop]
    show (devices.map (fun d => (syncStep settings upsert dry_run d).1))[k]? = _
    rw [List.getElem?_map, List.getElem?_eq_getElem hk, Option.map_some', hstep]
  · show (syncLoop settings upsert dry_run devices).details[j]? = _
    rw [hloop]
    show (devices.map (fun d => (syncStep settings upsert dry_run d).1))[j]? = _
    rw [List.getElem?_map]

/-- Witness for C1: two devices where the first upsert raises; both are
processed and the second keeps its own details entry. -/
theorem run_sync_failure_isolation_witness :
    (run_sync wSettings wUpsertFailFirst false [wDevice0, wDevice1]).processed = 2 ∧
    1 ≤ (run_sync wSettings wUpsertFailFirst false [wDevice0, wDevice1]).errors ∧
    (run_sync wSettings wUpsertFailFirst false [wDevice0, wDevice1]).details[0]?
      = some { device_id := some (str "1"), hostname := str "alpha",
               ip_address := str "10.0.0.1", error := some (str "boom") } ∧
    (run_sync wSettings wUpsertFailFirst false [wDevice0, wDevice1]).details[1]?
      = some (syncStep wSettings wUpsertFailFirst false wDevice1).1 := by
  have h := run_sync_failure_isolation wSettings wUpsertFailFirst false
    [wDevice0, wDevice1] 0 (str "boom") (by decide) rfl
  exact ⟨h.1, h.2.1, h.2.2.2.1, by simpa using h.2.2.2.2 1⟩

/-- **C9 (confirmed)**: for both engines the details list is exactly the
per-item map over the fetched collection in fetch order, so the i-th fetched
item produces the i-th details entry, with no reordering. -/
theorem details_fetch_order (settings : Settings)
    (upsert : InfobloxHostRecord → Bool → Except Str UpsertResult)
    (dry_run : Bool) (devices : List WUGDevice)
    (device_exists : Str → Except Str Bool)
    (create_device : Str → Str → Str → Except Str CreateResult)
    (dry_run2 : Bool) (records : List FetchedHostRecord) :
    (run_sync settings upsert dry_run devices).details
        = devices.map (fun d => (syncStep settings upsert dry_run d).1) ∧
    (∀ i : Nat, (run_sync settings upsert dry_run devices).details[i]?
        = (devices[i]?).map (fun d => (syncStep settings upsert dry_run d).1)) ∧
    (run_reverse_sync device_exists create_device dry_run2 records).details
        = records.map (fun r => (reverseStep device_exists create_device dry_run2 r).1) ∧
    (∀ i : Nat, (run_reverse_sync device_exists create_device dry_run2 records).details[i]?
        = (records[i]?).map
            (fun r => (reverseStep device_exists create_device dry_run2 r).1)) := by
  refine ⟨?_, fun i => ?_, ?_, fun i => ?_⟩ <;>
    simp [run_sync, run_reverse_sync, syncLoop_spec, reverseLoop_spec, List.getElem?_map]

/-- **C5** as stated fails on the code: the duplicate-device skip reason
string is "Device already exists in WUG", not "Device already exists". -/
theorem reverse_exists_reason_counterexample :
    (run_reverse_sync wExistsTrue wCreateOk false [wRecord0]).skipped = 1 ∧
    ((run_reverse_sync wExistsTrue wCreateOk false [wRecord0]).details.map
        (fun d => d.reason)) = [some (str "Device already exists in WUG")] ∧
    some (str "Device already exists in WUG") ≠ some (str "Device already exists") := by
  decide

/-- **C5 (amended)**: reverse-sync per-item classification: empty hostname or
IP is skipped with reason "Missing hostname or IP address" and no error; an
existing device is skipped with the code's reason "Device already exists in
WUG"; on creation, a gateway-reported failure (success false) and a gateway
exception (whether from the existence check or the create call) each count one
error and record the failure message; and processing always continues through
the whole batch (`processed` equals the fetched count). -/
theorem reverse_item_classification
    (device_exists : Str → Except Str Bool)
    (create_device : Str → Str → Str → Except Str CreateResult)
    (dry_run : Bool) (record : FetchedHostRecord) (res : CreateResult) (exc : Str)
    (records : List FetchedHostRecord) :
    (record.hostname = [] ∨ record.ip_address = [] →
      reverseStep device_exists create_device dry_run record =
        ({ hostname := if record.hostname = [] then str "unknown" else record.hostname,
           ip_address := if record.ip_address = [] then str "unknown"
                         else record.ip_address,
           action := some (str "skipped"),
           reason := some (str "Missing hostname or IP address") }, 0, 1, 0)) ∧
    (record.hostname ≠ [] → record.ip_address ≠ [] →
      device_exists record.ip_address = .ok true →
      reverseStep device_exists create_device dry_run record =
        ({ hostname := record.hostname, ip_address := record.ip_address,
           action := some (str "skipped"),
           reason := some (str "Device already exists in WUG") }, 0, 1, 0)) ∧
    (record.hostname ≠ [] → record.ip_address ≠ [] →
      device_exists record.ip_address = .ok false →
      create_device record.hostname record.ip_address record.hostname = .ok res →
      res.success = false →
      reverseStep device_exists create_device false record =
        ({ hostname := record.hostname, ip_address := record.ip_address,
           action := some (str "failed"),
           error := some (res.message.getD (str "Unknown error")) }, 0, 0, 1)) ∧
    (record.hostname ≠ [] → record.ip_address ≠ [] →
      device_exists record.ip_address = .error exc →
      reverseStep device_exists create_device dry_run record =
        ({ hostname := record.hostname, ip_address := record.ip_address,
           action := some (str "failed"), error := some exc }, 0, 0, 1)) ∧
    (record.hostname ≠ [] → record.ip_address ≠ [] →
      device_exists record.ip_address = .ok false →
      create_device record.hostname record.ip_address record.hostname = .error exc →
      reverseStep device_exists create_device false record =
        ({ hostname := record.hostname, ip_address := record.ip_address,
           action := some (str "failed"), error := some exc }, 0, 0, 1)) ∧
    (run_reverse_sync device_exists create_device dry_run records).processed
      = records.length := by
  refine ⟨fun h => ?_, fun h1 h2 hex => ?_, fun h1 h2 hex hcr hsucc => ?_,
    fun h1 h2 hex => ?_, fun h1 h2 hex hcr => ?_, ?_⟩
  · unfold reverseStep
    rw [if_pos h]
  · unfold reverseStep reverseTry
    rw [if_neg (not_or.mpr ⟨h1, h2⟩), hex]
    rfl
  · obtain ⟨s, did, msg0⟩ := res
    dsimp only at hsucc
    subst hsucc
    unfold reverseStep reverseTry
    rw [if_neg (not_or.mpr ⟨h1, h2⟩), hex, hcr]
    rfl
  · unfold reverseStep reverseTry
    rw [if_neg (not_or.mpr ⟨h1, h2⟩), hex]
    rfl
  · unfold reverseStep reverseTry
    rw [if_neg (not_or.mpr ⟨h1, h2⟩), hex, hcr]
    rfl
  · simp [run_reverse_sync, reverseLoop_spec]

/-- Witness for C5 (amended): concrete gateways exercising the
duplicate-skip, reported-failure, exception and missing-field branches, plus
the continuation count. -/
theorem reverse_item_classification_witness :
    reverseStep wExistsTrue wCreateOk false wRecord0 =
      ({ hostname := str "h1", ip_address := str "10.0.0.1",
         action := some (str "skipped"),
         reason := some (str "Device already exists in WUG") }, 0, 1, 0) ∧
    reverseStep wExistsFalse wCreateFail false wRecord0 =
      ({ hostname := str "h1", ip_address := str "10.0.0.1",
         action := some (str "failed"),
         error := some (str "create failed") }, 0, 0, 1) ∧
    reverseStep wExistsFalse wCreateRaise false wRecord0 =
      ({ hostname := str "h1", ip_address := str "10.0.0.1",
         action := some (str "failed"),
         error := some (str "boom-create") }, 0, 0, 1) ∧
    reverseStep wExistsTrue wCreateOk false wRecordNoIp =
      ({ hostname := str "h1", ip_address := str "unknown",
         action := some (str "skipped"),
         reason := some (str "Missing hostname or IP address") }, 0, 1, 0) ∧
    (run_reverse_sync wExistsTrue wCreateOk false [wRecord0, wRecordNoIp]).processed
      = 2 := by
  have ha := reverse_item_classification wExistsTrue wCreateOk false wRecord0
    { success := true } (str "x") [wRecord0, wRecordNoIp]
  have hb := reverse_item_classification wExistsFalse wCreateFail false wRecord0
    { success := false, message := some (str "create failed") } (str "boom-create") []
  have hc := reverse_item_classification wExistsTrue wCreateOk false wRecordNoIp
    { success := true } (str "x") []
  refine ⟨ha.2.1 (by decide) (by decide) rfl, ?_, ?_, ?_, ha.2.2.2.2.2⟩
  · exact hb.2.2.1 (by decide) (by decide) rfl rfl rfl
  · have h := (reverse_item_classification wExistsFalse wCreateRaise false wRecord0
      { success := true } (str "boom-create") []).2.2.2.2.1
    exact h (by decide) (by decide) rfl rfl
  · exact hc.1 (Or.inr rfl)

/-- **C6** as stated fails on the code: the reverse dry-run detail's action
label is "dry-run-create" (with message "Would create device in WUG"), not
"would-create". -/
theorem reverse_dry_run_label_counterexample :
    ((run_reverse_sync wExistsFalse wCreateOk true [wRecord0]).details.map
        (fun d => d.action)) = [some (str "dry-run-create")] ∧
    (run_reverse_sync wExistsFalse wCreateOk true [wRecord0]).created_or_updated = 1 ∧
    some (str "dry-run-create") ≠ some (str "would-create") := by
  decide

/-- **C6 (amended)**: dry-run performs no writes.  With `dryRun` true the
gateway upsert returns the synthetic "dry-run-upsert" acknowledgement without
issuing any GET/PUT/POST; the forward engine never special-cases the flag (its
result depends on the flag only through the gateway call and the recorded
`dry_run` field); and a reverse-sync dry-run run never invokes the create
operation (its result is independent of it), each eligible item instead
incrementing `created_or_updated` with the synthetic "dry-run-create" /
"Would create device in WUG" entry. -/
theorem dry_run_no_writes :
    (∀ (remote : RemoteHttp) (record : InfobloxHostRecord),
      upsert_host_record remote record true =
        (.ok { changed := true, action := str "dry-run-upsert", fqdn := record.fqdn,
               ip_address := record.ip_address, ref := none }, [])) ∧
    (∀ (settings : Settings)
       (u1 u2 : InfobloxHostRecord → Bool → Except Str UpsertResult)
       (d1 d2 : Bool) (devices : List WUGDevice),
      (∀ record, u1 record d1 = u2 record d2) →
      run_sync settings u1 d1 devices
        = { run_sync settings u2 d2 devices with dry_run := d1 }) ∧
    (∀ (device_exists : Str → Except Str Bool)
       (c1 c2 : Str → Str → Str → Except Str CreateResult)
       (records : List FetchedHostRecord),
      run_reverse_sync device_exists c1 true records
        = run_reverse_sync device_exists c2 true records) ∧
    (∀ (device_exists : Str → Except Str Bool)
       (create_device : Str → Str → Str → Except Str CreateResult)
       (record : FetchedHostRecord),
      record.hostname ≠ [] → record.ip_address ≠ [] →
      device_exists record.ip_address = .ok false →
      reverseStep device_exists create_device true record =
        ({ hostname := record.hostname, ip_address := record.ip_address,
           action := some (str "dry-run-create"),
           message := some (str "Would create device in WUG") }, 1, 0, 0)) := by
  refine ⟨fun remote record => rfl, ?_, ?_, ?_⟩
  · intro settings u1 u2 d1 d2 devices hequiv
    have hstep : ∀ d, syncStep settings u1 d1 d = syncStep settings u2 d2 d := by
      intro d
      unfold syncStep
      rw [hequiv]
    unfold run_sync
    rw [syncLoop_spec, syncLoop_spec]
    simp only [hstep]
  · intro device_exists c1 c2 records
    have hfun : reverseStep device_exists c1 true = reverseStep device_exists c2 true :=
      funext fun r => rfl
    unfold run_reverse_sync
    rw [reverseLoop_spec, reverseLoop_spec, hfun]
  · intro device_exists create_device record h1 h2 hex
    unfold reverseStep reverseTry
    rw [if_neg (not_or.mpr ⟨h1, h2⟩), hex]
    rfl

/-- Witness for C6 (amended): the fixture remote and record under dry-run, the
engine-flow identity at concrete gateways, and a concrete dry-run create. -/
theorem dry_run_no_writes_witness :
    upsert_host_record wRemote wHostRecord true =
      (.ok { changed := true, action := str "dry-run-upsert", fqdn := str "h1.local",
             ip_address := str "10.0.0.1", ref := none }, []) ∧
    run_sync wSettings wUpsertFailFirst true [wDevice0]
      = { run_sync wSettings wUpsertFailFirst true [wDevice0] with dry_run := true } ∧
    run_reverse_sync wExistsFalse wCreateOk true [wRecord0]
      = run_reverse_sync wExistsFalse wCreateRaise true [wRecord0] ∧
    reverseStep wExistsFalse wCreateRaise true wRecord0 =
      ({ hostname := str "h1", ip_address := str "10.0.0.1",
         action := some (str "dry-run-create"),
         message := some (str "Would create device in WUG") }, 1, 0, 0) := by
  have h := dry_run_no_writes
  exact ⟨h.1 wRemote wHostRecord,
    h.2.1 wSettings wUpsertFailFirst wUpsertFailFirst true true [wDevice0]
      (fun _ => rfl),
    h.2.2.1 wExistsFalse wCreateOk wCreateRaise [wRecord0],
    h.2.2.2 wExistsFalse wCreateRaise wRecord0 (by decide) (by decide) rfl⟩

end WugSync
